import Mathlib

/-!
Shallow embedding of the webhook registration-and-dispatch engine of
`src/packages/stripe/src/stripe.module.ts` and of the payload service of
`src/packages/stripe/src/stripe.payload.service.ts`.

Conventions of the embedding:
* TypeScript `string | undefined` fields become `Option String`; JavaScript
  truthiness of such a field (`!x` is true for both `undefined` and `""`)
  is `jsTruthyStr`.
* A handler callable produced by `externalContextCreator.create` is
  identified by a natural number (`handlerId`); invoking it on an event is
  modelled by an environment `callables : Nat -> StructuredEvent -> Settlement`
  giving, for each callable and event, the time at which its promise settles
  and whether it fulfils (`ok = true`) or rejects (`ok = false`).
* `Promise.all` over a list of settlements fulfils at the latest settlement
  time when every promise fulfils, and rejects at the earliest rejection
  time otherwise.
* The discovery container (`DiscoveryService`) is a list of components; a
  method may carry the `STRIPE_WEBHOOK_HANDLER` marker
  (`webhookHandlerMeta`), the `STRIPE_CONNECT_WEBHOOK_HANDLER` marker
  (`connectWebhookHandlerMeta`), and a component may carry the
  `STRIPE_WEBHOOK_SERVICE` marker.
-/

/-- JavaScript truthiness of a `string | undefined` value: `undefined` and
the empty string are falsy. -/
def jsTruthyStr : Option String → Bool
  | none => false
  | some s => s ≠ ""

/-- JavaScript `x || ''` on a `string | undefined` value, as used by the
`StripePayloadService` constructor. -/
def jsOrEmpty : Option String → String
  | none => ""
  | some s => if s = "" then "" else s

/-- The `stripeSecrets` field of the webhook configuration
(`webhookConfig.stripeSecrets` in `stripe.interfaces.ts` usage). -/
structure StripeSecrets where
  account : Option String
  connect : Option String
deriving DecidableEq

/-- The `loggingConfiguration` field of the webhook configuration. -/
structure LoggingConfiguration where
  logMatchingEventHandlers : Option Bool
deriving DecidableEq

/-- The parts of `webhookConfig` that the module and payload service read
(`controllerPrefix` and `decorators` only affect the HTTP controller, which
is outside the claims). -/
structure WebhookConfig where
  stripeSecrets : StripeSecrets
  loggingConfiguration : Option LoggingConfiguration
deriving DecidableEq

/-- The parts of `StripeModuleConfig` that `onModuleInit`, the dispatch
closures and `StripePayloadService` read. -/
structure StripeModuleConfig where
  webhookConfig : Option WebhookConfig
deriving DecidableEq

/-- A method of a discovered provider class, as seen by
`DiscoveryService.providerMethodsWithMetaAtKey`: the metadata payload (the
event-type string) at each of the two handler marker keys, when present,
and the identity of the bound callable that
`externalContextCreator.create` produces for it. -/
structure MethodInfo where
  methodName : String
  webhookHandlerMeta : Option String
  connectWebhookHandlerMeta : Option String
  handlerId : Nat
deriving DecidableEq

/-- A provider component known to the discovery container. -/
structure Component where
  name : String
  hasWebhookServiceMeta : Bool
  isStripeWebhookServiceInstance : Bool
  methods : List MethodInfo
deriving DecidableEq

/-- One element of the result of `providerMethodsWithMetaAtKey`: the owning
class name, the marker payload (event type), and the bound callable. -/
structure DiscoveredHandler where
  parentClassName : String
  eventType : String
  handlerId : Nat
deriving DecidableEq

/-- Model of `discover.providerMethodsWithMetaAtKey key` restricted to what the
module uses: every method of every component carrying the given marker, in
container order, with its metadata payload. -/
def discoverMethodsWithMeta (metaOf : MethodInfo → Option String)
    (container : List Component) : List DiscoveredHandler :=
  container.flatMap (fun comp =>
    comp.methods.filterMap (fun m =>
      (metaOf m).map (fun eventType =>
        { parentClassName := comp.name
          eventType := eventType
          handlerId := m.handlerId })))

/-- Auxiliary recursion for `firstKeys`, carrying the names already seen. -/
def firstKeysAux (seen : List String) : List String → List String
  | [] => []
  | n :: rest =>
    if seen.contains n then firstKeysAux seen rest
    else n :: firstKeysAux (n :: seen) rest

/-- The distinct elements of a list, in first-occurrence order: the key set
of a lodash `groupBy` result, in the order `Object.keys` reports it. -/
def firstKeys (l : List String) : List String :=
  firstKeysAux [] l

/-- Model of `flatten(Object.keys(grouped).map(x => grouped[x].map(...)))` without
the final projection: regroups the discovered handlers by owning class
name (first-occurrence order of class names, discovery order within a
class). -/
def groupByNameFlatten (l : List DiscoveredHandler) : List DiscoveredHandler :=
  (firstKeys (l.map (fun d => d.parentClassName))).flatMap
    (fun n => l.filter (fun d => d.parentClassName == n))

/-- One entry of a dispatch table: `{ key: eventType, handler: ... }` where
`handler` is the bound callable (identified by its id). -/
structure HandlerBinding where
  key : String
  handler : Nat
deriving DecidableEq

/-- The `webhookHandlers` (resp. `ConnectWebhookHandlers`) table built in
`onModuleInit` from one discovery pass. -/
def buildBindings (l : List DiscoveredHandler) : List HandlerBinding :=
  (groupByNameFlatten l).map (fun d => { key := d.eventType, handler := d.handlerId })

/-- The settlement of a promise: the time at which it settles and whether
it fulfils (`ok = true`) or rejects (`ok = false`). -/
structure Settlement where
  time : Nat
  ok : Bool
deriving DecidableEq

/-- The largest element of a list of naturals (0 for the empty list). -/
def natListMax (l : List Nat) : Nat := l.foldr max 0

/-- The least element of a nonempty list of naturals (0 for the empty
list). -/
def natListMin : List Nat → Nat
  | [] => 0
  | x :: xs => xs.foldr min x

/-- Semantics of `Promise.all`: fulfils at the latest settlement time when every promise
fulfils (immediately for an empty list), rejects at the earliest rejection
time otherwise. -/
def promiseAll (ss : List Settlement) : Settlement :=
  if ss.all (fun s => s.ok) then
    { time := natListMax (ss.map (fun s => s.time)), ok := true }
  else
    { time := natListMin ((ss.filter (fun s => !s.ok)).map (fun s => s.time))
      ok := false }

/-- An inbound webhook event: the module only reads its `type` field. -/
structure StructuredEvent where
  type : String
deriving DecidableEq

/-- The observable outcome of one call of a dispatch closure: which
handler bindings it launched (in order), whether the matching-handler-count
log line was emitted, and the settlement of the returned promise. -/
structure DispatchResult where
  started : List HandlerBinding
  loggedMatchCount : Bool
  settlement : Settlement
deriving DecidableEq

/-- The `handleWebhook` closure of `onModuleInit`: filters the table to the
bindings whose key equals `event.type`; if none match, resolves at once
with no effect; otherwise optionally logs the match count, launches every
matching handler, and awaits `Promise.all` of their promises. -/
def handleWebhook (stripeModuleConfig : StripeModuleConfig)
    (webhookHandlers : List HandlerBinding)
    (callables : Nat → StructuredEvent → Settlement)
    (webhookEvent : StructuredEvent) : DispatchResult :=
  let handlers := webhookHandlers.filter (fun x => x.key == webhookEvent.type)
  if handlers.length ≠ 0 then
    { started := handlers
      loggedMatchCount :=
        ((stripeModuleConfig.webhookConfig.bind
            (fun w => w.loggingConfiguration)).bind
          (fun lc => lc.logMatchingEventHandlers)).getD false
      settlement := promiseAll (handlers.map (fun x => callables x.handler webhookEvent)) }
  else
    { started := []
      loggedMatchCount := false
      settlement := { time := 0, ok := true } }

/-- The `ConnectHandleWebhook` closure of `onModuleInit`: identical body to
`handleWebhook`, applied to the connect table. -/
def ConnectHandleWebhook (stripeModuleConfig : StripeModuleConfig)
    (ConnectWebhookHandlers : List HandlerBinding)
    (callables : Nat → StructuredEvent → Settlement)
    (webhookEvent : StructuredEvent) : DispatchResult :=
  let handlers := ConnectWebhookHandlers.filter (fun x => x.key == webhookEvent.type)
  if handlers.length ≠ 0 then
    { started := handlers
      loggedMatchCount :=
        ((stripeModuleConfig.webhookConfig.bind
            (fun w => w.loggingConfiguration)).bind
          (fun lc => lc.logMatchingEventHandlers)).getD false
      settlement := promiseAll (handlers.map (fun x => callables x.handler webhookEvent)) }
  else
    { started := []
      loggedMatchCount := false
      settlement := { time := 0, ok := true } }

/-- The errors `onModuleInit` can throw. -/
inductive InitError
  | noSecretsProvided
  | missingWebhookService
deriving DecidableEq

/-- The outcome of `onModuleInit`: early return when no webhook config is
supplied (`disabled`: no discovery, no assignment of the dispatch
closures), a thrown error (`failed`), or the assignment of the two dispatch
closures over the two freshly built tables (`ready`). -/
inductive InitOutcome
  | disabled
  | failed (e : InitError)
  | ready (webhookHandlers : List HandlerBinding)
      (ConnectWebhookHandlers : List HandlerBinding)
deriving DecidableEq

/-- Model of `StripeModule.onModuleInit`: returns at once when `webhookConfig` is
absent; throws when neither secret is truthy; finds the first provider
carrying the `STRIPE_WEBHOOK_SERVICE` marker and throws when there is none
or it is not a `StripeWebhookService` instance; otherwise runs the two
discovery passes and assigns the two dispatch closures. -/
def onModuleInit (cfg : StripeModuleConfig) (container : List Component) : InitOutcome :=
  match cfg.webhookConfig with
  | none => .disabled
  | some wc =>
    if !jsTruthyStr wc.stripeSecrets.account && !jsTruthyStr wc.stripeSecrets.connect then
      .failed .noSecretsProvided
    else
      match (container.filter (fun c => c.hasWebhookServiceMeta)).head? with
      | none => .failed .missingWebhookService
      | some svc =>
        if !svc.isStripeWebhookServiceInstance then
          .failed .missingWebhookService
        else
          .ready
            (buildBindings (discoverMethodsWithMeta
              (fun m => m.webhookHandlerMeta) container))
            (buildBindings (discoverMethodsWithMeta
              (fun m => m.connectWebhookHandlerMeta) container))

/-- The argument selecting which webhook universe a payload belongs to. -/
inductive StripeWebhookType
  | account
  | connect
deriving DecidableEq

/-- The state of `StripePayloadService` after construction: the two secret
fields. -/
structure StripePayloadService where
  stripeWebhookSecret : String
  stripeConnectWebhookSecret : String
deriving DecidableEq

/-- The `StripePayloadService` constructor: each secret field is the
configured secret, with `|| ''` replacing an absent one by the empty
string. -/
def StripePayloadService.ofConfig (config : StripeModuleConfig) : StripePayloadService :=
  { stripeWebhookSecret :=
      jsOrEmpty (config.webhookConfig.bind (fun w => w.stripeSecrets.account))
    stripeConnectWebhookSecret :=
      jsOrEmpty (config.webhookConfig.bind (fun w => w.stripeSecrets.connect)) }

/-- Model of `tryHydratePayload`: calls `stripeClient.webhooks.constructEvent`
(abstracted as `constructEvent`) on the payload and signature, passing the
account secret when `webhookType === "account"` and the connect secret
otherwise. -/
def tryHydratePayload {E : Type} (svc : StripePayloadService)
    (constructEvent : String → String → String → E)
    (signature : String) (payload : String)
    (webhookType : StripeWebhookType) : E :=
  constructEvent payload signature
    (match webhookType with
     | .account => svc.stripeWebhookSecret
     | .connect => svc.stripeConnectWebhookSecret)

/-! Concrete inputs used by counterexamples and witnesses. -/

/-- A module configuration with webhooks enabled and only the account
secret set. -/
def exConfig : StripeModuleConfig :=
  { webhookConfig := some
      { stripeSecrets := { account := some "whsec_a", connect := none }
        loggingConfiguration := none } }

/-- A dispatch table with two handlers registered for the same event
type. -/
def exTable : List HandlerBinding :=
  [{ key := "invoice.paid", handler := 1 }, { key := "invoice.paid", handler := 2 }]

/-- An event matching both entries of `exTable`. -/
def exEvent : StructuredEvent := { type := "invoice.paid" }

/-- A callable environment in which handler 1 rejects at time 1 and every
other handler fulfils at time 5. -/
def exCallables : Nat → StructuredEvent → Settlement :=
  fun i _ => if i = 1 then { time := 1, ok := false } else { time := 5, ok := true }

/-- A callable environment in which every handler fulfils, handler `i` at
time `i`. -/
def exCallablesOk : Nat → StructuredEvent → Settlement :=
  fun i _ => { time := i, ok := true }

/-- The configuration of the spec's single-secret scenario: only the
primary (account) secret is present. -/
def scenarioConfig : StripeModuleConfig :=
  { webhookConfig := some
      { stripeSecrets := { account := some "whsec_a", connect := none }
        loggingConfiguration := none } }

/-- The provider carrying the webhook-service marker. -/
def scenarioWebhookService : Component :=
  { name := "StripeWebhookService"
    hasWebhookServiceMeta := true
    isStripeWebhookServiceInstance := true
    methods := [] }

/-- A component with one method tagged for the primary namespace and one
method tagged for the connect namespace, both for the same event type. -/
def scenarioHandlers : Component :=
  { name := "PaymentHandlers"
    hasWebhookServiceMeta := false
    isStripeWebhookServiceInstance := false
    methods :=
      [{ methodName := "onChargeSucceeded"
         webhookHandlerMeta := some "charge.succeeded"
         connectWebhookHandlerMeta := none
         handlerId := 1 },
       { methodName := "onConnectChargeSucceeded"
         webhookHandlerMeta := none
         connectWebhookHandlerMeta := some "charge.succeeded"
         handlerId := 2 }] }

/-- The discovery container of the scenario. -/
def scenarioContainer : List Component := [scenarioWebhookService, scenarioHandlers]

/-- The primary dispatch table discovery builds from `scenarioContainer`. -/
def scenarioPrimaryTable : List HandlerBinding := [{ key := "charge.succeeded", handler := 1 }]

/-- The connect dispatch table discovery builds from `scenarioContainer`. -/
def scenarioConnectTable : List HandlerBinding := [{ key := "charge.succeeded", handler := 2 }]

/-! Helper lemmas about the dispatch closures and the discovery pass. -/

/-- Both dispatch closures have the same body. -/
lemma ConnectHandleWebhook_eq_handleWebhook : ConnectHandleWebhook = handleWebhook := rfl

/-- Every member of a list of naturals is at most `natListMax` of it. -/
lemma le_natListMax (l : List Nat) (x : Nat) (h : x ∈ l) : x ≤ natListMax l := by
  induction l with
  | nil => cases h
  | cons a as ih =>
    rcases List.mem_cons.mp h with rfl | h2
    · exact le_max_left _ _
    · exact le_trans (ih h2) (le_max_right _ _)

/-- When every promise fulfils, `Promise.all` fulfils at the latest
settlement time. -/
lemma promiseAll_ok_of_all (ss : List Settlement) (h : ∀ s ∈ ss, s.ok = true) :
    promiseAll ss = { time := natListMax (ss.map (fun s => s.time)), ok := true } := by
  unfold promiseAll
  rw [if_pos]
  exact List.all_eq_true.mpr h

/-- When some promise rejects, `Promise.all` rejects. -/
lemma promiseAll_not_ok (ss : List Settlement) (h : ∃ s ∈ ss, s.ok = false) :
    (promiseAll ss).ok = false := by
  unfold promiseAll
  rw [if_neg]
  intro hall
  obtain ⟨s, hs, hok⟩ := h
  have := List.all_eq_true.mp hall s hs
  simp [hok] at this

/-- The handlers a dispatch call launches are exactly the table entries
whose key equals the event type, whatever the callables do. -/
lemma handleWebhook_started (cfg : StripeModuleConfig) (tbl : List HandlerBinding)
    (callables : Nat → StructuredEvent → Settlement) (ev : StructuredEvent) :
    (handleWebhook cfg tbl callables ev).started = tbl.filter (fun x => x.key == ev.type) := by
  unfold handleWebhook
  by_cases h : (tbl.filter (fun x => x.key == ev.type)).length ≠ 0
  · rw [if_pos h]
  · rw [not_not] at h
    have hnil : tbl.filter (fun x => x.key == ev.type) = [] := List.length_eq_zero.mp h
    simp [hnil]

/-- When at least one table entry matches, the dispatch settlement is the
settlement of `Promise.all` over the matching handlers' promises. -/
lemma handleWebhook_settlement_of_match (cfg : StripeModuleConfig)
    (tbl : List HandlerBinding) (callables : Nat → StructuredEvent → Settlement)
    (ev : StructuredEvent)
    (h : (tbl.filter (fun x => x.key == ev.type)).length ≠ 0) :
    (handleWebhook cfg tbl callables ev).settlement =
      promiseAll ((tbl.filter (fun x => x.key == ev.type)).map
        (fun x => callables x.handler ev)) := by
  unfold handleWebhook
  rw [if_pos h]

/-- When no table entry matches, the dispatch call is a fully determined
no-op. -/
lemma handleWebhook_no_match (cfg : StripeModuleConfig)
    (tbl : List HandlerBinding) (callables : Nat → StructuredEvent → Settlement)
    (ev : StructuredEvent)
    (h : tbl.filter (fun x => x.key == ev.type) = []) :
    handleWebhook cfg tbl callables ev =
      { started := [], loggedMatchCount := false, settlement := { time := 0, ok := true } } := by
  unfold handleWebhook
  rw [h]
  simp

/-- Membership in the regrouped discovery list implies membership in the
original discovery list. -/
lemma mem_of_mem_groupByNameFlatten (l : List DiscoveredHandler)
    (x : DiscoveredHandler) (h : x ∈ groupByNameFlatten l) : x ∈ l := by
  unfold groupByNameFlatten at h
  rw [List.mem_flatMap] at h
  obtain ⟨n, _, hx⟩ := h
  exact (List.mem_filter.mp hx).1

/-- Every discovered handler comes from a container method carrying the
marker, with that method's metadata payload and bound callable. -/
lemma mem_discoverMethodsWithMeta (metaOf : MethodInfo → Option String)
    (container : List Component) (d : DiscoveredHandler)
    (h : d ∈ discoverMethodsWithMeta metaOf container) :
    ∃ comp ∈ container, ∃ m ∈ comp.methods,
      metaOf m = some d.eventType ∧ m.handlerId = d.handlerId := by
  unfold discoverMethodsWithMeta at h
  rw [List.mem_flatMap] at h
  obtain ⟨comp, hcomp, hd⟩ := h
  rw [List.mem_filterMap] at hd
  obtain ⟨m, hm, hmap⟩ := hd
  rw [Option.map_eq_some'] at hmap
  obtain ⟨ev, hev, hstruct⟩ := hmap
  subst hstruct
  exact ⟨comp, hcomp, m, hm, hev, rfl⟩

/-- Every binding of a built table comes from a discovered handler. -/
lemma mem_buildBindings (l : List DiscoveredHandler) (b : HandlerBinding)
    (h : b ∈ buildBindings l) :
    ∃ d ∈ l, d.eventType = b.key ∧ d.handlerId = b.handler := by
  unfold buildBindings at h
  rw [List.mem_map] at h
  obtain ⟨d, hd, hb⟩ := h
  subst hb
  exact ⟨d, mem_of_mem_groupByNameFlatten _ _ hd, rfl, rfl⟩

/-- Every binding of a built table comes from a container method carrying
the corresponding marker. -/
lemma binding_provenance (metaOf : MethodInfo → Option String)
    (container : List Component) (b : HandlerBinding)
    (h : b ∈ buildBindings (discoverMethodsWithMeta metaOf container)) :
    ∃ comp ∈ container, ∃ m ∈ comp.methods,
      metaOf m = some b.key ∧ m.handlerId = b.handler := by
  obtain ⟨d, hd, hkey, hhandler⟩ := mem_buildBindings _ _ h
  obtain ⟨comp, hcomp, m, hm, hmeta, hid⟩ := mem_discoverMethodsWithMeta _ _ _ hd
  exact ⟨comp, hcomp, m, hm, by rw [hmeta, hkey], by rw [hid, hhandler]⟩

/-- When initialization reaches the ready state, its two tables are the
results of the two discovery passes over the container. -/
lemma onModuleInit_ready_tables (cfg : StripeModuleConfig) (container : List Component)
    (p c : List HandlerBinding) (h : onModuleInit cfg container = .ready p c) :
    p = buildBindings (discoverMethodsWithMeta (fun m => m.webhookHandlerMeta) container) ∧
    c = buildBindings (discoverMethodsWithMeta (fun m => m.connectWebhookHandlerMeta) container) := by
  unfold onModuleInit at h
  cases hcfg : cfg.webhookConfig with
  | none =>
    rw [hcfg] at h
    cases h
  | some wc =>
    rw [hcfg] at h
    dsimp only at h
    by_cases hsec : (!jsTruthyStr wc.stripeSecrets.account &&
        !jsTruthyStr wc.stripeSecrets.connect) = true
    · rw [if_pos hsec] at h
      cases h
    · rw [if_neg hsec] at h
      cases hhead : (container.filter (fun comp => comp.hasWebhookServiceMeta)).head? with
      | none =>
        rw [hhead] at h
        cases h
      | some svc =>
        rw [hhead] at h
        dsimp only at h
        by_cases hinst : (!svc.isStripeWebhookServiceInstance) = true
        · rw [if_pos hinst] at h
          cases h
        · rw [if_neg hinst] at h
          injection h with h1 h2
          exact ⟨h1.symm, h2.symm⟩

/-! Claim theorems. -/

/-- C1, counterexample: with two handlers registered for `invoice.paid`
and handler 1 rejecting, both handlers are launched but the dispatch call
rejects (`Promise.all`), contradicting the claim that it still resolves. -/
theorem handleWebhook_rejects_cex :
    (handleWebhook exConfig exTable exCallables exEvent).started = exTable ∧
    (handleWebhook exConfig exTable exCallables exEvent).settlement.ok = false := by
  decide

/-- C1, amended: if one of the N matching handlers rejects, every matching
handler is still launched (the dispatch call never cancels a sibling, and
each launched handler settles on its own), but the dispatch call
(`handleWebhook` and `ConnectHandleWebhook` alike) rejects rather than
resolving, because it awaits `Promise.all` and not a settle-all. -/
theorem dispatch_starts_all_but_rejects :
    ∀ (cfg : StripeModuleConfig) (tbl : List HandlerBinding)
      (callables : Nat → StructuredEvent → Settlement) (ev : StructuredEvent),
      (∃ b ∈ tbl.filter (fun x => x.key == ev.type), (callables b.handler ev).ok = false) →
      (handleWebhook cfg tbl callables ev).started = tbl.filter (fun x => x.key == ev.type) ∧
      (handleWebhook cfg tbl callables ev).settlement.ok = false ∧
      (ConnectHandleWebhook cfg tbl callables ev).started = tbl.filter (fun x => x.key == ev.type) ∧
      (ConnectHandleWebhook cfg tbl callables ev).settlement.ok = false := by
  intro cfg tbl callables ev h
  obtain ⟨b, hb, hok⟩ := h
  have hne : (tbl.filter (fun x => x.key == ev.type)).length ≠ 0 := by
    intro h0
    rw [List.length_eq_zero] at h0
    rw [h0] at hb
    cases hb
  have hs := handleWebhook_started cfg tbl callables ev
  have hset : (handleWebhook cfg tbl callables ev).settlement.ok = false := by
    rw [handleWebhook_settlement_of_match cfg tbl callables ev hne]
    exact promiseAll_not_ok _ ⟨callables b.handler ev, List.mem_map_of_mem _ hb, hok⟩
  rw [ConnectHandleWebhook_eq_handleWebhook]
  exact ⟨hs, hset, hs, hset⟩

/-- Witness for the amended C1 at the concrete rejecting input. -/
theorem dispatch_starts_all_but_rejects_witness :
    (handleWebhook exConfig exTable exCallables exEvent).started =
      exTable.filter (fun x => x.key == exEvent.type) ∧
    (handleWebhook exConfig exTable exCallables exEvent).settlement.ok = false ∧
    (ConnectHandleWebhook exConfig exTable exCallables exEvent).started =
      exTable.filter (fun x => x.key == exEvent.type) ∧
    (ConnectHandleWebhook exConfig exTable exCallables exEvent).settlement.ok = false :=
  dispatch_starts_all_but_rejects exConfig exTable exCallables exEvent
    ⟨{ key := "invoice.paid", handler := 1 }, by decide, by decide⟩

/-- C2, counterexample: with handler 1 rejecting at time 1 and handler 2
settling at time 5, the dispatch call settles at time 1, before every
launched handler has settled, contradicting the claimed join-all
barrier. -/
theorem dispatch_settles_early_cex :
    ¬ (∀ b ∈ (handleWebhook exConfig exTable exCallables exEvent).started,
        (exCallables b.handler exEvent).time ≤
          (handleWebhook exConfig exTable exCallables exEvent).settlement.time) := by
  decide

/-- C2, amended: when every matching handler fulfils, the dispatch call
resolves and only after all N launched handlers have settled (join-all on
the success path); a rejection, as the C2 counterexample shows, makes it
settle at the first rejection instead. -/
theorem dispatch_joins_all_when_all_fulfil :
    ∀ (cfg : StripeModuleConfig) (tbl : List HandlerBinding)
      (callables : Nat → StructuredEvent → Settlement) (ev : StructuredEvent),
      (∀ b ∈ tbl.filter (fun x => x.key == ev.type), (callables b.handler ev).ok = true) →
      (handleWebhook cfg tbl callables ev).settlement.ok = true ∧
      (∀ b ∈ (handleWebhook cfg tbl callables ev).started,
        (callables b.handler ev).time ≤ (handleWebhook cfg tbl callables ev).settlement.time) ∧
      (ConnectHandleWebhook cfg tbl callables ev).settlement.ok = true ∧
      (∀ b ∈ (ConnectHandleWebhook cfg tbl callables ev).started,
        (callables b.handler ev).time ≤ (ConnectHandleWebhook cfg tbl callables ev).settlement.time) := by
  intro cfg tbl callables ev h
  rw [ConnectHandleWebhook_eq_handleWebhook]
  have hmain : (handleWebhook cfg tbl callables ev).settlement.ok = true ∧
      ∀ b ∈ (handleWebhook cfg tbl callables ev).started,
        (callables b.handler ev).time ≤ (handleWebhook cfg tbl callables ev).settlement.time := by
    by_cases hne : (tbl.filter (fun x => x.key == ev.type)).length ≠ 0
    · have hall : ∀ s ∈ (tbl.filter (fun x => x.key == ev.type)).map
          (fun x => callables x.handler ev), s.ok = true := by
        intro s hs
        rw [List.mem_map] at hs
        obtain ⟨x, hx, rfl⟩ := hs
        exact h x hx
      have hset := handleWebhook_settlement_of_match cfg tbl callables ev hne
      rw [promiseAll_ok_of_all _ hall] at hset
      constructor
      · rw [hset]
      · intro b hb
        rw [handleWebhook_started] at hb
        rw [hset]
        exact le_natListMax _ _ (List.mem_map_of_mem _ (List.mem_map_of_mem _ hb))
    · rw [not_not, List.length_eq_zero] at hne
      rw [handleWebhook_no_match cfg tbl callables ev hne]
      exact ⟨rfl, by intro b hb; cases hb⟩
  exact ⟨hmain.1, hmain.2, hmain.1, hmain.2⟩

/-- Witness for the amended C2 at a concrete all-fulfilling input. -/
theorem dispatch_joins_all_witness :
    (handleWebhook exConfig exTable exCallablesOk exEvent).settlement.ok = true ∧
    (∀ b ∈ (handleWebhook exConfig exTable exCallablesOk exEvent).started,
      (exCallablesOk b.handler exEvent).time ≤
        (handleWebhook exConfig exTable exCallablesOk exEvent).settlement.time) ∧
    (ConnectHandleWebhook exConfig exTable exCallablesOk exEvent).settlement.ok = true ∧
    (∀ b ∈ (ConnectHandleWebhook exConfig exTable exCallablesOk exEvent).started,
      (exCallablesOk b.handler exEvent).time ≤
        (ConnectHandleWebhook exConfig exTable exCallablesOk exEvent).settlement.time) :=
  dispatch_joins_all_when_all_fulfil exConfig exTable exCallablesOk exEvent (by decide)

/-- C3, counterexample: with only the primary secret configured and one
method tagged for each namespace with the same event type, initialization
builds a nonempty connect table, and dispatching the event on the connect
namespace launches that handler, contradicting the claim that the connect
table stays empty and the connect dispatch is a no-op. -/
theorem connect_discovery_not_skipped_cex :
    onModuleInit scenarioConfig scenarioContainer =
      .ready scenarioPrimaryTable scenarioConnectTable ∧
    scenarioConnectTable ≠ [] ∧
    (ConnectHandleWebhook scenarioConfig scenarioConnectTable
      (fun i _ => { time := i, ok := true }) { type := "charge.succeeded" }).started ≠ [] := by
  decide

/-- C3, amended: when only the primary secret is configured, discovery
still registers both namespaces: dispatching the event type on the primary
namespace invokes the primary handler once, and dispatching the same type
on the connect namespace also invokes the connect handler once — the
connect table is populated even though its secret is absent, because both
discovery passes run unconditionally. -/
theorem discovery_registers_both_namespaces :
    onModuleInit scenarioConfig scenarioContainer =
      .ready scenarioPrimaryTable scenarioConnectTable ∧
    (handleWebhook scenarioConfig scenarioPrimaryTable
      (fun i _ => { time := i, ok := true }) { type := "charge.succeeded" }).started =
      scenarioPrimaryTable ∧
    (ConnectHandleWebhook scenarioConfig scenarioConnectTable
      (fun i _ => { time := i, ok := true }) { type := "charge.succeeded" }).started =
      scenarioConnectTable := by
  decide

/-- C4: whenever a webhook configuration is supplied but neither the
account nor the connect secret is truthy, initialization fails with the
no-secrets error, for every container — so no discovery result can depend
on the container and the module never reaches the ready state. -/
theorem onModuleInit_no_secrets_fails :
    ∀ (wc : WebhookConfig) (container : List Component),
      jsTruthyStr wc.stripeSecrets.account = false →
      jsTruthyStr wc.stripeSecrets.connect = false →
      onModuleInit { webhookConfig := some wc } container = .failed .noSecretsProvided := by
  intro wc container h1 h2
  unfold onModuleInit
  simp [h1, h2]

/-- Witness for C4: an absent account secret and an empty connect secret. -/
theorem onModuleInit_no_secrets_fails_witness :
    onModuleInit
      { webhookConfig := some
          { stripeSecrets := { account := none, connect := some "" }
            loggingConfiguration := none } }
      scenarioContainer = .failed .noSecretsProvided :=
  onModuleInit_no_secrets_fails _ scenarioContainer (by decide) (by decide)

/-- C5: when initialization reaches the ready state, the two discovery
passes partition handlers by namespace: a callable whose every carrying
method lacks the primary-webhook marker never appears in the primary
table, and one whose every carrying method lacks the connect-webhook
marker never appears in the connect table. -/
theorem onModuleInit_partitions_by_namespace :
    ∀ (cfg : StripeModuleConfig) (container : List Component) (p c : List HandlerBinding),
      onModuleInit cfg container = .ready p c →
      ∀ i : Nat,
        ((∀ comp ∈ container, ∀ m ∈ comp.methods, m.handlerId = i → m.webhookHandlerMeta = none) →
          ∀ b ∈ p, b.handler ≠ i) ∧
        ((∀ comp ∈ container, ∀ m ∈ comp.methods, m.handlerId = i → m.connectWebhookHandlerMeta = none) →
          ∀ b ∈ c, b.handler ≠ i) := by
  intro cfg container p c h i
  obtain ⟨hp, hc⟩ := onModuleInit_ready_tables cfg container p c h
  constructor
  · intro huntagged b hb hbi
    rw [hp] at hb
    obtain ⟨comp, hcomp, m, hm, hmeta, hid⟩ := binding_provenance _ container b hb
    have hnone := huntagged comp hcomp m hm (by rw [hid, hbi])
    rw [hnone] at hmeta
    cases hmeta
  · intro huntagged b hb hbi
    rw [hc] at hb
    obtain ⟨comp, hcomp, m, hm, hmeta, hid⟩ := binding_provenance _ container b hb
    have hnone := huntagged comp hcomp m hm (by rw [hid, hbi])
    rw [hnone] at hmeta
    cases hmeta

/-- Witness for C5 on the two-namespace scenario container: the
connect-only callable 2 is absent from the primary table and the
primary-only callable 1 is absent from the connect table. -/
theorem onModuleInit_partitions_witness :
    (∀ b ∈ scenarioPrimaryTable, b.handler ≠ 2) ∧
    (∀ b ∈ scenarioConnectTable, b.handler ≠ 1) :=
  ⟨(onModuleInit_partitions_by_namespace scenarioConfig scenarioContainer
      scenarioPrimaryTable scenarioConnectTable (by decide) 2).1 (by decide),
   (onModuleInit_partitions_by_namespace scenarioConfig scenarioContainer
      scenarioPrimaryTable scenarioConnectTable (by decide) 1).2 (by decide)⟩

/-- C6: one dispatch call launches exactly the table entries matching the
event type, each exactly once and in table order, and which handlers are
launched does not depend on any handler's settlement — every invocation is
started before any completion is awaited (fan-out, not chaining). -/
theorem handleWebhook_fanout_exactly_once :
    ∀ (cfg : StripeModuleConfig) (tbl : List HandlerBinding)
      (callables callables2 : Nat → StructuredEvent → Settlement) (ev : StructuredEvent),
      (handleWebhook cfg tbl callables ev).started = tbl.filter (fun x => x.key == ev.type) ∧
      (handleWebhook cfg tbl callables ev).started = (handleWebhook cfg tbl callables2 ev).started := by
  intro cfg tbl callables callables2 ev
  exact ⟨handleWebhook_started cfg tbl callables ev, by
    rw [handleWebhook_started cfg tbl callables ev, handleWebhook_started cfg tbl callables2 ev]⟩

/-- C7: when no table entry matches the event type, both dispatch closures
return the no-op result: no handler launched, no log emitted, and a
promise that fulfils immediately. -/
theorem dispatch_no_match_noop :
    ∀ (cfg : StripeModuleConfig) (tbl : List HandlerBinding)
      (callables : Nat → StructuredEvent → Settlement) (ev : StructuredEvent),
      tbl.filter (fun x => x.key == ev.type) = [] →
      handleWebhook cfg tbl callables ev =
        { started := [], loggedMatchCount := false, settlement := { time := 0, ok := true } } ∧
      ConnectHandleWebhook cfg tbl callables ev =
        { started := [], loggedMatchCount := false, settlement := { time := 0, ok := true } } := by
  intro cfg tbl callables ev h
  rw [ConnectHandleWebhook_eq_handleWebhook]
  exact ⟨handleWebhook_no_match cfg tbl callables ev h, handleWebhook_no_match cfg tbl callables ev h⟩

/-- Witness for C7: an event type with no registered handler. -/
theorem dispatch_no_match_noop_witness :
    handleWebhook exConfig exTable exCallables { type := "customer.created" } =
      { started := [], loggedMatchCount := false, settlement := { time := 0, ok := true } } ∧
    ConnectHandleWebhook exConfig exTable exCallables { type := "customer.created" } =
      { started := [], loggedMatchCount := false, settlement := { time := 0, ok := true } } :=
  dispatch_no_match_noop exConfig exTable exCallables { type := "customer.created" } (by decide)

/-- C8: with at least one secret configured, if no container component
carries the webhook-service marker, initialization fails with the
missing-service error before any handler table is built. -/
theorem onModuleInit_missing_service_fails :
    ∀ (wc : WebhookConfig) (container : List Component),
      (jsTruthyStr wc.stripeSecrets.account = true ∨
        jsTruthyStr wc.stripeSecrets.connect = true) →
      container.filter (fun comp => comp.hasWebhookServiceMeta) = [] →
      onModuleInit { webhookConfig := some wc } container = .failed .missingWebhookService := by
  intro wc container h1 h2
  unfold onModuleInit
  have hsec : (!jsTruthyStr wc.stripeSecrets.account &&
      !jsTruthyStr wc.stripeSecrets.connect) = false := by
    rcases h1 with h | h <;> simp [h]
  simp [hsec, h2]

/-- Witness for C8: the scenario config with a container that has handler
methods but no webhook-service provider. -/
theorem onModuleInit_missing_service_fails_witness :
    onModuleInit scenarioConfig [scenarioHandlers] = .failed .missingWebhookService :=
  onModuleInit_missing_service_fails _ [scenarioHandlers] (Or.inl (by decide)) (by decide)

/-- C9: when no webhook configuration is supplied, initialization returns
the disabled no-op state for every container — no error, no discovery, and
the dispatch closures are never assigned. -/
theorem onModuleInit_disabled_without_config :
    ∀ container : List Component,
      onModuleInit { webhookConfig := none } container = .disabled := by
  intro container
  rfl

/-- C10: `tryHydratePayload` passes the verifier the account secret
exactly when the webhook type is `account` and the connect secret
otherwise, and a secret absent from the configuration was replaced by the
empty string at construction, so verification proceeds with an
empty-string secret. -/
theorem tryHydratePayload_secret_selection :
    ∀ (E : Type) (constructEvent : String → String → String → E)
      (signature payload : String) (svc : StripePayloadService)
      (acct conn : Option String) (lc : Option LoggingConfiguration),
      tryHydratePayload svc constructEvent signature payload .account =
        constructEvent payload signature svc.stripeWebhookSecret ∧
      tryHydratePayload svc constructEvent signature payload .connect =
        constructEvent payload signature svc.stripeConnectWebhookSecret ∧
      (StripePayloadService.ofConfig
        { webhookConfig := some
            { stripeSecrets := { account := none, connect := conn }
              loggingConfiguration := lc } }).stripeWebhookSecret = "" ∧
      (StripePayloadService.ofConfig
        { webhookConfig := some
            { stripeSecrets := { account := acct, connect := none }
              loggingConfiguration := lc } }).stripeConnectWebhookSecret = "" := by
  intro E constructEvent signature payload svc acct conn lc
  exact ⟨rfl, rfl, rfl, rfl⟩
